import Mathlib

/-!
# Beam cross-section stress engine: formal model

Shallow embedding of the cross-section property engine, the first-moment
evaluator and the stress evaluator of `src/src/App.jsx`
(the `sectionProps`, `Q_point`, and `*StressSI` computations).

JavaScript numbers are modelled as real numbers `ℝ`; `Math.pow (x, 1.5)`
is modelled as the real power `x ^ (1.5 : ℝ)`; `Math.abs` as `|·|`;
`Math.PI` as `π`.  The section-type tag is kept as a `String`, exactly as
the source dispatches on it, so that the fall-through behaviour on
unrecognised tags is part of the model.  All three operations are total
functions, mirroring the source, which never throws on any input.

For the one claim about IEEE division by zero, a second evaluator
`computeStressesJS` is given whose divisions land in `JSVal`, a real
number extended with the three non-finite IEEE values; everywhere the
denominator is nonzero it agrees with the real-valued evaluator.
-/

open Real

noncomputable section

/-- The SI-converted dimension inputs of the source, one field per
`*SI` dimension variable (`rectWidthSI`, ..., `iBeamWebThickSI`). -/
structure Dims where
  rectWidth : ℝ
  rectHeight : ℝ
  circleDiameter : ℝ
  hollowOuter : ℝ
  hollowInner : ℝ
  iBeamDepth : ℝ
  iBeamFlangeWidth : ℝ
  iBeamFlangeThick : ℝ
  iBeamWebThick : ℝ

/-- Output record of the section-property computation (`sectionProps`). -/
structure SectionProperties where
  area : ℝ
  inertia : ℝ
  polarInertia : ℝ
  outerRadius : ℝ
  shearThickness : ℝ

/-- The four applied loads, already SI-converted
(`forceSI`, `momentSI`, `torqueSI`, `shearForceSI`). -/
structure LoadSet where
  axialForce : ℝ
  bendingMoment : ℝ
  torque : ℝ
  shearForce : ℝ

/-- The four stress components (`axialStressSI`, `bendingStressSI`,
`torsionalShearSI`, `transverseShearSI`). -/
structure StressResult where
  axial : ℝ
  bending : ℝ
  torsionalShear : ℝ
  transverseShear : ℝ

/-- `sectionProps` of `App.jsx` (lines 75-127): the if-chain on
`sectionType`, with the declared-zero initial values reached when no
branch matches. -/
def computeSectionProperties (sectionType : String) (d : Dims) : SectionProperties :=
  if sectionType = "rectangle" then
    { area := d.rectWidth * d.rectHeight
      inertia := d.rectWidth * d.rectHeight ^ 3 / 12
      polarInertia := d.rectWidth * d.rectHeight ^ 3 / 3
      outerRadius := d.rectHeight / 2
      shearThickness := d.rectWidth }
  else if sectionType = "circle" then
    { area := π * (d.circleDiameter / 2) ^ 2
      inertia := π * (d.circleDiameter / 2) ^ 4 / 4
      polarInertia := π * (d.circleDiameter / 2) ^ 4 / 2
      outerRadius := d.circleDiameter / 2
      shearThickness := d.circleDiameter }
  else if sectionType = "hollowCircle" then
    if d.hollowInner ≥ d.hollowOuter then
      { area := 0
        inertia := 0
        polarInertia := 0
        outerRadius := d.hollowOuter
        shearThickness := 0 }
    else
      { area := π * (d.hollowOuter ^ 2 - d.hollowInner ^ 2)
        inertia := π / 4 * (d.hollowOuter ^ 4 - d.hollowInner ^ 4)
        polarInertia := π / 2 * (d.hollowOuter ^ 4 - d.hollowInner ^ 4)
        outerRadius := d.hollowOuter
        shearThickness := d.hollowOuter - d.hollowInner }
  else if sectionType = "iBeam" then
    { area := 2 * d.iBeamFlangeWidth * d.iBeamFlangeThick +
        d.iBeamWebThick * (d.iBeamDepth - 2 * d.iBeamFlangeThick)
      inertia := (d.iBeamFlangeWidth * d.iBeamDepth ^ 3 -
        (d.iBeamFlangeWidth - d.iBeamWebThick) *
          (d.iBeamDepth - 2 * d.iBeamFlangeThick) ^ 3) / 12
      polarInertia := (d.iBeamFlangeWidth * d.iBeamDepth ^ 3 -
        (d.iBeamFlangeWidth - d.iBeamWebThick) *
          (d.iBeamDepth - 2 * d.iBeamFlangeThick) ^ 3) / 12
      outerRadius := d.iBeamDepth / 2
      shearThickness := d.iBeamWebThick }
  else
    { area := 0, inertia := 0, polarInertia := 0, outerRadius := 0, shearThickness := 0 }

/-- Rectangle inside-branch expression of `Q_point`
(`(rectWidthSI / 2) * (a^2 - pointYSI^2)` with `a = rectHeightSI / 2`). -/
def rectInsideQ (d : Dims) (y : ℝ) : ℝ :=
  d.rectWidth / 2 * ((d.rectHeight / 2) ^ 2 - y ^ 2)

/-- Solid-circle inside-branch expression of `Q_point`
(`(2/3) * (r*r - y*y) ^ 1.5` with `r = circleDiameterSI / 2`). -/
def circleInsideQ (d : Dims) (y : ℝ) : ℝ :=
  2 / 3 * (d.circleDiameter / 2 * (d.circleDiameter / 2) - y * y) ^ (1.5 : ℝ)

/-- Hollow-circle bore-branch expression of `Q_point` (ordinate at or
inside the inner radius). -/
def hollowBoreQ (d : Dims) (y : ℝ) : ℝ :=
  2 / 3 * ((d.hollowOuter * d.hollowOuter - y * y) ^ (1.5 : ℝ) -
    (d.hollowInner * d.hollowInner - y * y) ^ (1.5 : ℝ))

/-- Hollow-circle ring-branch expression of `Q_point` (ordinate strictly
outside the inner radius, at or inside the outer radius). -/
def hollowRingQ (d : Dims) (y : ℝ) : ℝ :=
  2 / 3 * (d.hollowOuter * d.hollowOuter - y * y) ^ (1.5 : ℝ)

/-- I-beam web-branch expression of `Q_point`:
`Q_flange + webArea * webCentroid` with `Q_flange = bf * tf`,
`webArea = tw * (halfDepth - tf - |y|)`,
`webCentroid = (halfDepth - tf + |y|) / 2`. -/
def iBeamWebQ (d : Dims) (y : ℝ) : ℝ :=
  d.iBeamFlangeWidth * d.iBeamFlangeThick +
    d.iBeamWebThick * (d.iBeamDepth / 2 - d.iBeamFlangeThick - |y|) *
      ((d.iBeamDepth / 2 - d.iBeamFlangeThick + |y|) / 2)

/-- I-beam flange-branch expression of `Q_point`:
`bf * flangeHeightAbove * (flangeHeightAbove / 2)` with
`flangeHeightAbove = halfDepth - |y|`. -/
def iBeamFlangeQ (d : Dims) (y : ℝ) : ℝ :=
  d.iBeamFlangeWidth * (d.iBeamDepth / 2 - |y|) * ((d.iBeamDepth / 2 - |y|) / 2)

/-- `Q_point` of `App.jsx` (lines 144-186): piecewise first moment of
area at ordinate `y`, dispatching on the same string tag and the same
guards (`>` for outside, `≤` for the hollow bore and the i-beam web);
the final `return 0` is the fall-through for unknown tags.  The branch
bodies are the expressions named above. -/
def computeFirstMoment (sectionType : String) (d : Dims) (y : ℝ) : ℝ :=
  if sectionType = "rectangle" then
    if |y| > d.rectHeight / 2 then 0 else rectInsideQ d y
  else if sectionType = "circle" then
    if |y| > d.circleDiameter / 2 then 0 else circleInsideQ d y
  else if sectionType = "hollowCircle" then
    if |y| > d.hollowOuter then 0
    else if |y| ≤ d.hollowInner then hollowBoreQ d y
    else hollowRingQ d y
  else if sectionType = "iBeam" then
    if |y| > d.iBeamDepth / 2 then 0
    else if |y| ≤ d.iBeamDepth / 2 - d.iBeamFlangeThick then iBeamWebQ d y
    else iBeamFlangeQ d y
  else 0

/-- The four stress formulas of `App.jsx` (lines 204-214), with exact
real division. -/
def computeStresses (props : SectionProperties) (Q : ℝ) (loads : LoadSet) (y : ℝ) :
    StressResult where
  axial := loads.axialForce / props.area
  bending := loads.bendingMoment * y / props.inertia
  torsionalShear := loads.torque * |y| / props.polarInertia
  transverseShear := loads.shearForce * Q / (props.inertia * props.shearThickness)

/-- A JavaScript number as produced by the stress divisions: either a
finite real value or one of the IEEE non-finite values. -/
inductive JSVal : Type where
  | fin : ℝ → JSVal
  | posInf : JSVal
  | negInf : JSVal
  | nan : JSVal

/-- Whether a `JSVal` is a finite number. -/
def JSVal.isFinite : JSVal → Bool
  | .fin _ => true
  | _ => false

/-- IEEE-754 division of a finite real numerator by a finite real
denominator, as JavaScript `/` performs it: a zero denominator (the
positive zero, the only zero the engine produces) yields `Infinity`,
`-Infinity` or `NaN` according to the numerator's sign. -/
def jsDiv (num den : ℝ) : JSVal :=
  if den = 0 then
    if num > 0 then .posInf else if num < 0 then .negInf else .nan
  else .fin (num / den)

/-- The four stress components with their IEEE non-finite outcomes kept. -/
structure StressResultJS where
  axial : JSVal
  bending : JSVal
  torsionalShear : JSVal
  transverseShear : JSVal

/-- The stress formulas of `App.jsx` (lines 204-214) with the division
performed by `jsDiv`, so that division by a zero denominator is visible
as a non-finite value rather than the real-division convention `x / 0 = 0`. -/
def computeStressesJS (props : SectionProperties) (Q : ℝ) (loads : LoadSet) (y : ℝ) :
    StressResultJS where
  axial := jsDiv loads.axialForce props.area
  bending := jsDiv (loads.bendingMoment * y) props.inertia
  torsionalShear := jsDiv (loads.torque * |y|) props.polarInertia
  transverseShear := jsDiv (loads.shearForce * Q) (props.inertia * props.shearThickness)

/-- The source's default dimension set (initial state of `App.jsx`):
rectangle 0.05 × 0.1, circle diameter 0.08, hollow radii 0.08 / 0.04,
i-beam 0.2 / 0.1 / 0.02 / 0.01. -/
def defaultDims : Dims where
  rectWidth := 0.05
  rectHeight := 0.1
  circleDiameter := 0.08
  hollowOuter := 0.08
  hollowInner := 0.04
  iBeamDepth := 0.2
  iBeamFlangeWidth := 0.1
  iBeamFlangeThick := 0.02
  iBeamWebThick := 0.01

/-- A degenerate hollow-circle input (`Ro = 0.04 < Ri = 0.08`). -/
def degenerateHollowDims : Dims :=
  { defaultDims with hollowOuter := 0.04, hollowInner := 0.08 }

/-- An i-beam with a thick flange (`h = 10`, `bf = 1`, `tf = 3`,
`tw = 0.01`; all positive and `2 * tf < h`). -/
def thickFlangeDims : Dims :=
  { defaultDims with
      iBeamDepth := 10
      iBeamFlangeWidth := 1
      iBeamFlangeThick := 3
      iBeamWebThick := 0.01 }

/-- The source's default load set: axial 1000 N, moment 1000 N·m,
torque 1000 N·m, shear 500 N. -/
def defaultLoads : LoadSet where
  axialForce := 1000
  bendingMoment := 1000
  torque := 1000
  shearForce := 500

/-- The hollow-circle first moment exactly as the specification words it
(its three pieces in the spec's own case order); used to compare the
source's branch structure against the spec. -/
def hollowQ_spec (Ro Ri y : ℝ) : ℝ :=
  if |y| > Ro then 0
  else if |y| ≤ Ri then
    2 / 3 * ((Ro ^ 2 - y ^ 2) ^ (1.5 : ℝ) - (Ri ^ 2 - y ^ 2) ^ (1.5 : ℝ))
  else
    2 / 3 * (Ro ^ 2 - y ^ 2) ^ (1.5 : ℝ)

end

/-- C4: the stress evaluator returns exactly the four spec formulas
`axial = N / A`, `bending = M * y / I`, `torsionalShear = T * |y| / J`,
`transverseShear = V * Q / (I * t)`, with no clamping and no
combination of the components. -/
theorem computeStresses_formulas (props : SectionProperties) (Q : ℝ)
    (loads : LoadSet) (y : ℝ) :
    computeStresses props Q loads y =
      { axial := loads.axialForce / props.area
        bending := loads.bendingMoment * y / props.inertia
        torsionalShear := loads.torque * |y| / props.polarInertia
        transverseShear :=
          loads.shearForce * Q / (props.inertia * props.shearThickness) } :=
  rfl

/-- C5: a hollow circle with `Ri ≥ Ro` yields the degenerate zero
record (with `outerRadius = Ro`), as a defined total-function fallback;
with `Ri < Ro` it yields the annulus formulas. -/
theorem hollowCircle_props_spec (d : Dims) :
    (d.hollowInner ≥ d.hollowOuter →
      computeSectionProperties "hollowCircle" d =
        { area := 0, inertia := 0, polarInertia := 0,
          outerRadius := d.hollowOuter, shearThickness := 0 }) ∧
    (d.hollowInner < d.hollowOuter →
      computeSectionProperties "hollowCircle" d =
        { area := π * (d.hollowOuter ^ 2 - d.hollowInner ^ 2)
          inertia := π / 4 * (d.hollowOuter ^ 4 - d.hollowInner ^ 4)
          polarInertia := π / 2 * (d.hollowOuter ^ 4 - d.hollowInner ^ 4)
          outerRadius := d.hollowOuter
          shearThickness := d.hollowOuter - d.hollowInner }) := by
  constructor
  · intro h
    simp [computeSectionProperties, h]
  · intro h
    simp [computeSectionProperties, not_le.mpr h]

/-- Witness for C5 at the spec's own example `Ro = 0.04, Ri = 0.08`
and at the default valid radii `Ro = 0.08, Ri = 0.04`. -/
theorem hollowCircle_props_spec_witness :
    computeSectionProperties "hollowCircle" degenerateHollowDims =
      { area := 0, inertia := 0, polarInertia := 0,
        outerRadius := 0.04, shearThickness := 0 } ∧
    computeSectionProperties "hollowCircle" defaultDims =
      { area := π * (0.08 ^ 2 - 0.04 ^ 2)
        inertia := π / 4 * (0.08 ^ 4 - 0.04 ^ 4)
        polarInertia := π / 2 * (0.08 ^ 4 - 0.04 ^ 4)
        outerRadius := 0.08
        shearThickness := 0.08 - 0.04 } := by
  constructor
  · have h := (hollowCircle_props_spec degenerateHollowDims).1
      (by norm_num [degenerateHollowDims, defaultDims])
    rw [h]
    norm_num [degenerateHollowDims, defaultDims]
  · have h := (hollowCircle_props_spec defaultDims).2
      (by norm_num [defaultDims])
    rw [h]
    norm_num [defaultDims]

/-- C10: an unrecognised section tag falls through every branch of both
computations, yielding the all-zero property record and `Q = 0` for
every dimension set and ordinate, with no error path. -/
theorem unknown_variant_zero (s : String) (d : Dims) (y : ℝ)
    (h1 : s ≠ "rectangle") (h2 : s ≠ "circle")
    (h3 : s ≠ "hollowCircle") (h4 : s ≠ "iBeam") :
    computeSectionProperties s d =
      { area := 0, inertia := 0, polarInertia := 0,
        outerRadius := 0, shearThickness := 0 } ∧
    computeFirstMoment s d y = 0 := by
  refine ⟨?_, ?_⟩ <;>
    simp [computeSectionProperties, computeFirstMoment, h1, h2, h3, h4]

/-- Witness for C10 at the concrete unknown tag "triangle". -/
theorem unknown_variant_zero_witness :
    computeSectionProperties "triangle" defaultDims =
      { area := 0, inertia := 0, polarInertia := 0,
        outerRadius := 0, shearThickness := 0 } ∧
    computeFirstMoment "triangle" defaultDims 0.03 = 0 :=
  unknown_variant_zero "triangle" defaultDims 0.03
    (by decide) (by decide) (by decide) (by decide)

/-- C9: for each of the four variants with valid non-degenerate positive
dimensions, `area`, `inertia` and `polarInertia` are non-negative. -/
theorem section_props_nonneg (d : Dims) :
    (0 < d.rectWidth → 0 < d.rectHeight →
      0 ≤ (computeSectionProperties "rectangle" d).area ∧
        0 ≤ (computeSectionProperties "rectangle" d).inertia ∧
        0 ≤ (computeSectionProperties "rectangle" d).polarInertia) ∧
    (0 < d.circleDiameter →
      0 ≤ (computeSectionProperties "circle" d).area ∧
        0 ≤ (computeSectionProperties "circle" d).inertia ∧
        0 ≤ (computeSectionProperties "circle" d).polarInertia) ∧
    (0 < d.hollowInner → d.hollowInner < d.hollowOuter →
      0 ≤ (computeSectionProperties "hollowCircle" d).area ∧
        0 ≤ (computeSectionProperties "hollowCircle" d).inertia ∧
        0 ≤ (computeSectionProperties "hollowCircle" d).polarInertia) ∧
    (0 < d.iBeamDepth → 0 < d.iBeamFlangeWidth → 0 < d.iBeamFlangeThick →
      0 < d.iBeamWebThick → 2 * d.iBeamFlangeThick < d.iBeamDepth →
      0 ≤ (computeSectionProperties "iBeam" d).area ∧
        0 ≤ (computeSectionProperties "iBeam" d).inertia ∧
        0 ≤ (computeSectionProperties "iBeam" d).polarInertia) := by
  refine ⟨fun hb hh => ?_, fun hcd => ?_, fun hi ho => ?_,
    fun h1 h2 h3 h4 h5 => ?_⟩
  · simp only [computeSectionProperties]
    simp only [String.reduceEq, if_true, if_false, reduceIte]
    refine ⟨?_, ?_, ?_⟩ <;> positivity
  · simp only [computeSectionProperties]
    simp only [String.reduceEq, if_true, if_false, reduceIte]
    refine ⟨?_, ?_, ?_⟩ <;> positivity
  · have hsq : d.hollowInner ^ 2 ≤ d.hollowOuter ^ 2 := by nlinarith
    have hq : d.hollowInner ^ 4 ≤ d.hollowOuter ^ 4 := by
      nlinarith [pow_le_pow_left₀ hi.le ho.le 4]
    simp only [computeSectionProperties]
    simp only [String.reduceEq, if_true, if_false, reduceIte]
    rw [if_neg (by simpa using not_le.mpr ho)]
    refine ⟨?_, ?_, ?_⟩
    · exact mul_nonneg Real.pi_pos.le (by linarith)
    · exact mul_nonneg (by positivity) (by linarith)
    · exact mul_nonneg (by positivity) (by linarith)
  · have hc : 0 < d.iBeamDepth - 2 * d.iBeamFlangeThick := by linarith
    have hch : d.iBeamDepth - 2 * d.iBeamFlangeThick ≤ d.iBeamDepth := by linarith
    have hcube : (d.iBeamDepth - 2 * d.iBeamFlangeThick) ^ 3 ≤ d.iBeamDepth ^ 3 :=
      pow_le_pow_left₀ hc.le hch 3
    have hcube0 : 0 ≤ (d.iBeamDepth - 2 * d.iBeamFlangeThick) ^ 3 :=
      pow_nonneg hc.le 3
    have hkey : 0 ≤ d.iBeamFlangeWidth * d.iBeamDepth ^ 3 -
        (d.iBeamFlangeWidth - d.iBeamWebThick) *
          (d.iBeamDepth - 2 * d.iBeamFlangeThick) ^ 3 := by
      nlinarith [mul_nonneg h2.le (sub_nonneg.mpr hcube),
        mul_nonneg h4.le hcube0]
    simp only [computeSectionProperties]
    simp only [String.reduceEq, if_true, if_false, reduceIte]
    refine ⟨by nlinarith, ?_, ?_⟩ <;>
      exact div_nonneg hkey (by norm_num)

/-- Witness for C9 at the source's default dimensions (rectangle and
i-beam instances). -/
theorem section_props_nonneg_witness :
    0 ≤ (computeSectionProperties "rectangle" defaultDims).area ∧
    0 ≤ (computeSectionProperties "iBeam" defaultDims).inertia := by
  constructor
  · exact ((section_props_nonneg defaultDims).1
      (by norm_num [defaultDims]) (by norm_num [defaultDims])).1
  · exact ((section_props_nonneg defaultDims).2.2.2
      (by norm_num [defaultDims]) (by norm_num [defaultDims])
      (by norm_num [defaultDims]) (by norm_num [defaultDims])
      (by norm_num [defaultDims])).2.1

/-- C3: the i-beam first moment is exactly the source's two-branch
formula: `bf * tf + webArea * webCentroid` in the web
(`|y| ≤ h/2 - tf`), and `bf * fha * (fha / 2)` with `fha = h/2 - |y|`
in the flange (`h/2 - tf < |y| ≤ h/2`). -/
theorem iBeam_Q_formula (d : Dims) (y : ℝ)
    (hh : 0 < d.iBeamDepth) (hbf : 0 < d.iBeamFlangeWidth)
    (htf : 0 < d.iBeamFlangeThick) (htw : 0 < d.iBeamWebThick)
    (hweb : 2 * d.iBeamFlangeThick < d.iBeamDepth) :
    (|y| ≤ d.iBeamDepth / 2 - d.iBeamFlangeThick →
      computeFirstMoment "iBeam" d y =
        d.iBeamFlangeWidth * d.iBeamFlangeThick +
          d.iBeamWebThick * (d.iBeamDepth / 2 - d.iBeamFlangeThick - |y|) *
            ((d.iBeamDepth / 2 - d.iBeamFlangeThick + |y|) / 2)) ∧
    (d.iBeamDepth / 2 - d.iBeamFlangeThick < |y| → |y| ≤ d.iBeamDepth / 2 →
      computeFirstMoment "iBeam" d y =
        d.iBeamFlangeWidth * (d.iBeamDepth / 2 - |y|) *
          ((d.iBeamDepth / 2 - |y|) / 2)) := by
  constructor
  · intro hy
    have hnot : ¬ |y| > d.iBeamDepth / 2 := by
      push_neg
      linarith
    simp [computeFirstMoment, hnot, hy, iBeamWebQ]
  · intro hy1 hy2
    have hnot : ¬ |y| > d.iBeamDepth / 2 := not_lt.mpr hy2
    have hnot2 : ¬ |y| ≤ d.iBeamDepth / 2 - d.iBeamFlangeThick := not_le.mpr hy1
    simp [computeFirstMoment, hnot, hnot2, iBeamFlangeQ]

/-- Witness for C3 at the default i-beam, at a web ordinate
`y = 0.05` and a flange ordinate `y = 0.09`. -/
theorem iBeam_Q_formula_witness :
    computeFirstMoment "iBeam" defaultDims 0.05 = 0.0020195 ∧
    computeFirstMoment "iBeam" defaultDims 0.09 = 0.000005 := by
  have habs5 : |(0.05 : ℝ)| = 0.05 := abs_of_pos (by norm_num)
  have habs9 : |(0.09 : ℝ)| = 0.09 := abs_of_pos (by norm_num)
  constructor
  · have h := (iBeam_Q_formula defaultDims 0.05 (by norm_num [defaultDims])
      (by norm_num [defaultDims]) (by norm_num [defaultDims])
      (by norm_num [defaultDims]) (by norm_num [defaultDims])).1
      (by rw [habs5]; norm_num [defaultDims])
    rw [h, habs5]
    norm_num [defaultDims]
  · have h := (iBeam_Q_formula defaultDims 0.09 (by norm_num [defaultDims])
      (by norm_num [defaultDims]) (by norm_num [defaultDims])
      (by norm_num [defaultDims]) (by norm_num [defaultDims])).2
      (by rw [habs9]; norm_num [defaultDims])
      (by rw [habs9]; norm_num [defaultDims])
    rw [h, habs9]
    norm_num [defaultDims]

/-- C7: for a valid hollow circle (`0 < Ri < Ro`) the source first
moment agrees with the spec's three-piece description everywhere. -/
theorem hollowCircle_Q_piecewise (d : Dims) (y : ℝ)
    (h0 : 0 < d.hollowInner) (h1 : d.hollowInner < d.hollowOuter) :
    computeFirstMoment "hollowCircle" d y =
      hollowQ_spec d.hollowOuter d.hollowInner y := by
  have e1 : d.hollowOuter * d.hollowOuter - y * y = d.hollowOuter ^ 2 - y ^ 2 := by
    ring
  have e2 : d.hollowInner * d.hollowInner - y * y = d.hollowInner ^ 2 - y ^ 2 := by
    ring
  simp only [computeFirstMoment, hollowQ_spec, hollowBoreQ, hollowRingQ,
    String.reduceEq, if_true, if_false, reduceIte, e1, e2]

/-- Witness for C7 at the default radii and a bore ordinate. -/
theorem hollowCircle_Q_piecewise_witness :
    computeFirstMoment "hollowCircle" defaultDims 0.02 =
      hollowQ_spec 0.08 0.04 0.02 := by
  have h := hollowCircle_Q_piecewise defaultDims 0.02
    (by norm_num [defaultDims]) (by norm_num [defaultDims])
  rw [h]
  norm_num [defaultDims]

/-- C6: with `shearThickness = 0` (or `area = 0`), as produced by a
degenerate hollow section, the corresponding division by zero is not
intercepted: the evaluator is total (no exception), and under IEEE
division the transverse-shear (respectively axial) component is one of
the non-finite values `Infinity`, `-Infinity` or `NaN`. -/
theorem degenerate_division_nonfinite (props : SectionProperties) (Q : ℝ)
    (loads : LoadSet) (y : ℝ) (ht : props.shearThickness = 0) :
    (computeStressesJS props Q loads y).transverseShear.isFinite = false ∧
    (props.area = 0 →
      (computeStressesJS props Q loads y).axial.isFinite = false) := by
  constructor
  · show (jsDiv (loads.shearForce * Q)
      (props.inertia * props.shearThickness)).isFinite = false
    rw [ht, mul_zero]
    unfold jsDiv
    rw [if_pos rfl]
    split_ifs <;> rfl
  · intro ha
    show (jsDiv loads.axialForce props.area).isFinite = false
    rw [ha]
    unfold jsDiv
    rw [if_pos rfl]
    split_ifs <;> rfl

/-- Witness for C6 at the spec's degenerate hollow section
(`Ro = 0.04, Ri = 0.08`) with the default loads. -/
theorem degenerate_division_nonfinite_witness :
    (computeStressesJS (computeSectionProperties "hollowCircle" degenerateHollowDims)
      0 defaultLoads 0).transverseShear.isFinite = false ∧
    (computeStressesJS (computeSectionProperties "hollowCircle" degenerateHollowDims)
      0 defaultLoads 0).axial.isFinite = false := by
  have ht : (computeSectionProperties "hollowCircle" degenerateHollowDims).shearThickness
      = 0 := by
    simp only [computeSectionProperties, degenerateHollowDims, defaultDims,
      String.reduceEq, if_true, if_false, reduceIte]
    norm_num
  have ha : (computeSectionProperties "hollowCircle" degenerateHollowDims).area = 0 := by
    simp only [computeSectionProperties, degenerateHollowDims, defaultDims,
      String.reduceEq, if_true, if_false, reduceIte]
    norm_num
  have h := degenerate_division_nonfinite
    (computeSectionProperties "hollowCircle" degenerateHollowDims) 0 defaultLoads 0 ht
  exact ⟨h.1, h.2 ha⟩

/-- C8: for each valid variant and any ordinate with
`|y| > outerRadius`, the first moment is `0`, hence the transverse-shear
component is `0`, while the bending and torsional-shear components are
still computed from their formulas and are nonzero whenever the bending
moment and torque are nonzero; both computations are total functions, so
the out-of-range ordinate is not rejected. -/
theorem out_of_range_ordinate_behavior (d : Dims) (loads : LoadSet) (y : ℝ) :
    (0 < d.rectWidth → 0 < d.rectHeight →
      |y| > (computeSectionProperties "rectangle" d).outerRadius →
      computeFirstMoment "rectangle" d y = 0 ∧
      (computeStresses (computeSectionProperties "rectangle" d)
        (computeFirstMoment "rectangle" d y) loads y).transverseShear = 0 ∧
      (loads.bendingMoment ≠ 0 →
        (computeStresses (computeSectionProperties "rectangle" d)
          (computeFirstMoment "rectangle" d y) loads y).bending ≠ 0) ∧
      (loads.torque ≠ 0 →
        (computeStresses (computeSectionProperties "rectangle" d)
          (computeFirstMoment "rectangle" d y) loads y).torsionalShear ≠ 0)) ∧
    (0 < d.circleDiameter →
      |y| > (computeSectionProperties "circle" d).outerRadius →
      computeFirstMoment "circle" d y = 0 ∧
      (computeStresses (computeSectionProperties "circle" d)
        (computeFirstMoment "circle" d y) loads y).transverseShear = 0 ∧
      (loads.bendingMoment ≠ 0 →
        (computeStresses (computeSectionProperties "circle" d)
          (computeFirstMoment "circle" d y) loads y).bending ≠ 0) ∧
      (loads.torque ≠ 0 →
        (computeStresses (computeSectionProperties "circle" d)
          (computeFirstMoment "circle" d y) loads y).torsionalShear ≠ 0)) ∧
    (0 < d.hollowInner → d.hollowInner < d.hollowOuter →
      |y| > (computeSectionProperties "hollowCircle" d).outerRadius →
      computeFirstMoment "hollowCircle" d y = 0 ∧
      (computeStresses (computeSectionProperties "hollowCircle" d)
        (computeFirstMoment "hollowCircle" d y) loads y).transverseShear = 0 ∧
      (loads.bendingMoment ≠ 0 →
        (computeStresses (computeSectionProperties "hollowCircle" d)
          (computeFirstMoment "hollowCircle" d y) loads y).bending ≠ 0) ∧
      (loads.torque ≠ 0 →
        (computeStresses (computeSectionProperties "hollowCircle" d)
          (computeFirstMoment "hollowCircle" d y) loads y).torsionalShear ≠ 0)) ∧
    (0 < d.iBeamDepth → 0 < d.iBeamFlangeWidth → 0 < d.iBeamFlangeThick →
      0 < d.iBeamWebThick → 2 * d.iBeamFlangeThick < d.iBeamDepth →
      |y| > (computeSectionProperties "iBeam" d).outerRadius →
      computeFirstMoment "iBeam" d y = 0 ∧
      (computeStresses (computeSectionProperties "iBeam" d)
        (computeFirstMoment "iBeam" d y) loads y).transverseShear = 0 ∧
      (loads.bendingMoment ≠ 0 →
        (computeStresses (computeSectionProperties "iBeam" d)
          (computeFirstMoment "iBeam" d y) loads y).bending ≠ 0) ∧
      (loads.torque ≠ 0 →
        (computeStresses (computeSectionProperties "iBeam" d)
          (computeFirstMoment "iBeam" d y) loads y).torsionalShear ≠ 0)) := by
  refine ⟨fun hb hh hy => ?_, fun hcd hy => ?_, fun hi ho hy => ?_,
    fun h1 h2 h3 h4 h5 hy => ?_⟩
  · have hor : (computeSectionProperties "rectangle" d).outerRadius =
        d.rectHeight / 2 := by
      simp [computeSectionProperties]
    rw [hor] at hy
    have hQ : computeFirstMoment "rectangle" d y = 0 := by
      simp [computeFirstMoment, hy]
    have hy0 : y ≠ 0 := abs_pos.mp ((half_pos hh).trans hy)
    have hI : (computeSectionProperties "rectangle" d).inertia =
        d.rectWidth * d.rectHeight ^ 3 / 12 := by
      simp [computeSectionProperties]
    have hJ : (computeSectionProperties "rectangle" d).polarInertia =
        d.rectWidth * d.rectHeight ^ 3 / 3 := by
      simp [computeSectionProperties]
    refine ⟨hQ, ?_, ?_, ?_⟩
    · show loads.shearForce * computeFirstMoment "rectangle" d y / _ = 0
      rw [hQ, mul_zero, zero_div]
    · intro hM
      show loads.bendingMoment * y /
        (computeSectionProperties "rectangle" d).inertia ≠ 0
      rw [hI]
      exact div_ne_zero (mul_ne_zero hM hy0) (by positivity)
    · intro hT
      show loads.torque * |y| /
        (computeSectionProperties "rectangle" d).polarInertia ≠ 0
      rw [hJ]
      exact div_ne_zero (mul_ne_zero hT (abs_ne_zero.mpr hy0)) (by positivity)
  · have hor : (computeSectionProperties "circle" d).outerRadius =
        d.circleDiameter / 2 := by
      simp [computeSectionProperties]
    rw [hor] at hy
    have hQ : computeFirstMoment "circle" d y = 0 := by
      simp [computeFirstMoment, hy]
    have hy0 : y ≠ 0 := abs_pos.mp ((half_pos hcd).trans hy)
    have hI : (computeSectionProperties "circle" d).inertia =
        π * (d.circleDiameter / 2) ^ 4 / 4 := by
      simp [computeSectionProperties]
    have hJ : (computeSectionProperties "circle" d).polarInertia =
        π * (d.circleDiameter / 2) ^ 4 / 2 := by
      simp [computeSectionProperties]
    refine ⟨hQ, ?_, ?_, ?_⟩
    · show loads.shearForce * computeFirstMoment "circle" d y / _ = 0
      rw [hQ, mul_zero, zero_div]
    · intro hM
      show loads.bendingMoment * y /
        (computeSectionProperties "circle" d).inertia ≠ 0
      rw [hI]
      exact div_ne_zero (mul_ne_zero hM hy0) (by positivity)
    · intro hT
      show loads.torque * |y| /
        (computeSectionProperties "circle" d).polarInertia ≠ 0
      rw [hJ]
      exact div_ne_zero (mul_ne_zero hT (abs_ne_zero.mpr hy0)) (by positivity)
  · have hor : (computeSectionProperties "hollowCircle" d).outerRadius =
        d.hollowOuter := by
      simp [computeSectionProperties, not_le.mpr ho]
    rw [hor] at hy
    have hQ : computeFirstMoment "hollowCircle" d y = 0 := by
      simp [computeFirstMoment, hy]
    have hy0 : y ≠ 0 := abs_pos.mp ((hi.trans ho).trans hy)
    have hsq : d.hollowInner ^ 2 < d.hollowOuter ^ 2 := by nlinarith
    have hq4 : d.hollowInner ^ 4 < d.hollowOuter ^ 4 := by
      nlinarith [mul_pos (sub_pos.mpr hsq)
        (by positivity : (0:ℝ) < d.hollowOuter ^ 2 + d.hollowInner ^ 2)]
    have hI : (computeSectionProperties "hollowCircle" d).inertia =
        π / 4 * (d.hollowOuter ^ 4 - d.hollowInner ^ 4) := by
      simp [computeSectionProperties, not_le.mpr ho]
    have hJ : (computeSectionProperties "hollowCircle" d).polarInertia =
        π / 2 * (d.hollowOuter ^ 4 - d.hollowInner ^ 4) := by
      simp [computeSectionProperties, not_le.mpr ho]
    refine ⟨hQ, ?_, ?_, ?_⟩
    · show loads.shearForce * computeFirstMoment "hollowCircle" d y / _ = 0
      rw [hQ, mul_zero, zero_div]
    · intro hM
      show loads.bendingMoment * y /
        (computeSectionProperties "hollowCircle" d).inertia ≠ 0
      rw [hI]
      refine div_ne_zero (mul_ne_zero hM hy0) ?_
      have : (0:ℝ) < π / 4 * (d.hollowOuter ^ 4 - d.hollowInner ^ 4) :=
        mul_pos (by positivity) (sub_pos.mpr hq4)
      exact this.ne'
    · intro hT
      show loads.torque * |y| /
        (computeSectionProperties "hollowCircle" d).polarInertia ≠ 0
      rw [hJ]
      refine div_ne_zero (mul_ne_zero hT (abs_ne_zero.mpr hy0)) ?_
      have : (0:ℝ) < π / 2 * (d.hollowOuter ^ 4 - d.hollowInner ^ 4) :=
        mul_pos (by positivity) (sub_pos.mpr hq4)
      exact this.ne'
  · have hor : (computeSectionProperties "iBeam" d).outerRadius =
        d.iBeamDepth / 2 := by
      simp [computeSectionProperties]
    rw [hor] at hy
    have hQ : computeFirstMoment "iBeam" d y = 0 := by
      simp [computeFirstMoment, hy]
    have hy0 : y ≠ 0 := abs_pos.mp ((half_pos h1).trans hy)
    have hc : 0 < d.iBeamDepth - 2 * d.iBeamFlangeThick := by linarith
    have hcube : (d.iBeamDepth - 2 * d.iBeamFlangeThick) ^ 3 ≤ d.iBeamDepth ^ 3 :=
      pow_le_pow_left₀ hc.le (by linarith) 3
    have hkey : (0:ℝ) < d.iBeamFlangeWidth * d.iBeamDepth ^ 3 -
        (d.iBeamFlangeWidth - d.iBeamWebThick) *
          (d.iBeamDepth - 2 * d.iBeamFlangeThick) ^ 3 := by
      nlinarith [mul_nonneg h2.le (sub_nonneg.mpr hcube),
        mul_pos h4 (pow_pos hc 3)]
    have hI : (computeSectionProperties "iBeam" d).inertia =
        (d.iBeamFlangeWidth * d.iBeamDepth ^ 3 -
          (d.iBeamFlangeWidth - d.iBeamWebThick) *
            (d.iBeamDepth - 2 * d.iBeamFlangeThick) ^ 3) / 12 := by
      simp [computeSectionProperties]
    have hJ : (computeSectionProperties "iBeam" d).polarInertia =
        (d.iBeamFlangeWidth * d.iBeamDepth ^ 3 -
          (d.iBeamFlangeWidth - d.iBeamWebThick) *
            (d.iBeamDepth - 2 * d.iBeamFlangeThick) ^ 3) / 12 := by
      simp [computeSectionProperties]
    refine ⟨hQ, ?_, ?_, ?_⟩
    · show loads.shearForce * computeFirstMoment "iBeam" d y / _ = 0
      rw [hQ, mul_zero, zero_div]
    · intro hM
      show loads.bendingMoment * y /
        (computeSectionProperties "iBeam" d).inertia ≠ 0
      rw [hI]
      exact div_ne_zero (mul_ne_zero hM hy0) (div_pos hkey (by norm_num)).ne'
    · intro hT
      show loads.torque * |y| /
        (computeSectionProperties "iBeam" d).polarInertia ≠ 0
      rw [hJ]
      exact div_ne_zero (mul_ne_zero hT (abs_ne_zero.mpr hy0))
        (div_pos hkey (by norm_num)).ne'

/-- Witness for C8 at the default rectangle with the default loads and
the out-of-range ordinate `y = 0.2` (outer radius `0.05`). -/
theorem out_of_range_ordinate_behavior_witness :
    computeFirstMoment "rectangle" defaultDims 0.2 = 0 ∧
    (computeStresses (computeSectionProperties "rectangle" defaultDims)
      (computeFirstMoment "rectangle" defaultDims 0.2)
      defaultLoads 0.2).transverseShear = 0 ∧
    (computeStresses (computeSectionProperties "rectangle" defaultDims)
      (computeFirstMoment "rectangle" defaultDims 0.2)
      defaultLoads 0.2).bending ≠ 0 ∧
    (computeStresses (computeSectionProperties "rectangle" defaultDims)
      (computeFirstMoment "rectangle" defaultDims 0.2)
      defaultLoads 0.2).torsionalShear ≠ 0 := by
  have h := (out_of_range_ordinate_behavior defaultDims defaultLoads 0.2).1
    (by norm_num [defaultDims]) (by norm_num [defaultDims])
    (by
      simp only [computeSectionProperties, defaultDims, String.reduceEq,
        if_true, if_false, reduceIte]
      rw [show |(0.2:ℝ)| = 0.2 from abs_of_pos (by norm_num)]
      norm_num)
  exact ⟨h.1, h.2.1, h.2.2.1 (by norm_num [defaultLoads]),
    h.2.2.2 (by norm_num [defaultLoads])⟩

/-- Unfolding of the first moment for the rectangle tag. -/
theorem computeFirstMoment_rect (d : Dims) (y : ℝ) :
    computeFirstMoment "rectangle" d y =
      if |y| > d.rectHeight / 2 then 0 else rectInsideQ d y := by
  simp [computeFirstMoment]

/-- Unfolding of the first moment for the solid-circle tag. -/
theorem computeFirstMoment_circle (d : Dims) (y : ℝ) :
    computeFirstMoment "circle" d y =
      if |y| > d.circleDiameter / 2 then 0 else circleInsideQ d y := by
  simp [computeFirstMoment]

/-- Unfolding of the first moment for the hollow-circle tag. -/
theorem computeFirstMoment_hollow (d : Dims) (y : ℝ) :
    computeFirstMoment "hollowCircle" d y =
      if |y| > d.hollowOuter then 0
      else if |y| ≤ d.hollowInner then hollowBoreQ d y
      else hollowRingQ d y := by
  simp [computeFirstMoment]

/-- Unfolding of the first moment for the i-beam tag. -/
theorem computeFirstMoment_iBeam (d : Dims) (y : ℝ) :
    computeFirstMoment "iBeam" d y =
      if |y| > d.iBeamDepth / 2 then 0
      else if |y| ≤ d.iBeamDepth / 2 - d.iBeamFlangeThick then iBeamWebQ d y
      else iBeamFlangeQ d y := by
  simp [computeFirstMoment]

/-- Four-point convexity inequality for the 3/2 power on nonnegative
reals: shifting both endpoints of an increment of fixed width `c`
upward cannot decrease the increment of `x ^ 1.5`. -/
theorem rpow15_four_point {v V c : ℝ} (hv : 0 ≤ v) (hvV : v ≤ V) (hc : 0 ≤ c) :
    (v + c) ^ (1.5:ℝ) + V ^ (1.5:ℝ) ≤ v ^ (1.5:ℝ) + (V + c) ^ (1.5:ℝ) := by
  rcases eq_or_lt_of_le (show v ≤ V + c by linarith) with hD | hD
  · have hc0 : c = 0 := by linarith
    have hVv : V = v := by linarith
    rw [hc0, hVv, add_zero]
  · have hDpos : 0 < V + c - v := by linarith
    have hconv : ConvexOn ℝ (Set.Ici 0) fun x : ℝ => x ^ (1.5:ℝ) :=
      convexOn_rpow (by norm_num)
    have hmem1 : v ∈ Set.Ici (0:ℝ) := Set.mem_Ici.mpr hv
    have hmem2 : V + c ∈ Set.Ici (0:ℝ) := Set.mem_Ici.mpr (by linarith)
    have ht1 : 0 ≤ (V - v) / (V + c - v) := div_nonneg (by linarith) hDpos.le
    have ht2 : 0 ≤ c / (V + c - v) := div_nonneg hc hDpos.le
    have hsum : (V - v) / (V + c - v) + c / (V + c - v) = 1 := by
      field_simp
      ring
    have h1 := hconv.2 hmem1 hmem2 ht1 ht2 hsum
    have h2 := hconv.2 hmem1 hmem2 ht2 ht1 (by linarith)
    simp only [smul_eq_mul] at h1 h2
    have e1 : (V - v) / (V + c - v) * v + c / (V + c - v) * (V + c) = v + c := by
      field_simp
      ring
    have e2 : c / (V + c - v) * v + (V - v) / (V + c - v) * (V + c) = V := by
      field_simp
      ring
    rw [e1] at h1
    rw [e2] at h2
    have key : (V - v) / (V + c - v) * v ^ (1.5:ℝ) +
        c / (V + c - v) * (V + c) ^ (1.5:ℝ) +
        (c / (V + c - v) * v ^ (1.5:ℝ) +
          (V - v) / (V + c - v) * (V + c) ^ (1.5:ℝ)) =
        v ^ (1.5:ℝ) + (V + c) ^ (1.5:ℝ) := by
      calc (V - v) / (V + c - v) * v ^ (1.5:ℝ) +
          c / (V + c - v) * (V + c) ^ (1.5:ℝ) +
          (c / (V + c - v) * v ^ (1.5:ℝ) +
            (V - v) / (V + c - v) * (V + c) ^ (1.5:ℝ)) =
          ((V - v) / (V + c - v) + c / (V + c - v)) *
            (v ^ (1.5:ℝ) + (V + c) ^ (1.5:ℝ)) := by ring
        _ = v ^ (1.5:ℝ) + (V + c) ^ (1.5:ℝ) := by rw [hsum, one_mul]
    linarith

/-- C1 counterexample: at the default i-beam dimensions the ordinate
`|y| = h/2 - tf` (the web/flange root) lands in the web branch, whose
value `bf * tf = 0.002` differs from the flange-branch value
`bf * tf * (tf / 2) = 0.00002` at the same ordinate, so `Q` is NOT
continuous at this branch boundary. -/
theorem iBeam_root_discontinuity_cex :
    computeFirstMoment "iBeam" defaultDims 0.08 = iBeamWebQ defaultDims 0.08 ∧
    iBeamWebQ defaultDims 0.08 ≠ iBeamFlangeQ defaultDims 0.08 := by
  have habs : |(0.08:ℝ)| = 0.08 := abs_of_pos (by norm_num)
  constructor
  · rw [computeFirstMoment_iBeam, habs]
    rw [if_neg (by norm_num [defaultDims]), if_pos (by norm_num [defaultDims])]
  · rw [iBeamWebQ, iBeamFlangeQ, habs]
    norm_num [defaultDims]

/-- C1 amended: boundary ordinates land in the inside branch via `≤`
for every variant, and `Q` is continuous at the outer boundaries
(`|y| = a`, `r`, `Ro`, `h/2`) and at the hollow bore (`|y| = Ri`);
but at the i-beam web/flange root `|y| = h/2 - tf` the two adjacent
branch values differ whenever `tf ≠ 2`, so `Q` is discontinuous there. -/
theorem boundary_inside_branch_continuity (d : Dims) :
    (0 < d.rectWidth → 0 < d.rectHeight →
      computeFirstMoment "rectangle" d (d.rectHeight / 2) =
        rectInsideQ d (d.rectHeight / 2) ∧
      rectInsideQ d (d.rectHeight / 2) = 0) ∧
    (0 < d.circleDiameter →
      computeFirstMoment "circle" d (d.circleDiameter / 2) =
        circleInsideQ d (d.circleDiameter / 2) ∧
      circleInsideQ d (d.circleDiameter / 2) = 0) ∧
    (0 < d.hollowInner → d.hollowInner < d.hollowOuter →
      computeFirstMoment "hollowCircle" d d.hollowInner =
        hollowBoreQ d d.hollowInner ∧
      hollowBoreQ d d.hollowInner = hollowRingQ d d.hollowInner ∧
      computeFirstMoment "hollowCircle" d d.hollowOuter =
        hollowRingQ d d.hollowOuter ∧
      hollowRingQ d d.hollowOuter = 0) ∧
    (0 < d.iBeamDepth → 0 < d.iBeamFlangeWidth → 0 < d.iBeamFlangeThick →
      0 < d.iBeamWebThick → 2 * d.iBeamFlangeThick < d.iBeamDepth →
      computeFirstMoment "iBeam" d (d.iBeamDepth / 2 - d.iBeamFlangeThick) =
        iBeamWebQ d (d.iBeamDepth / 2 - d.iBeamFlangeThick) ∧
      computeFirstMoment "iBeam" d (d.iBeamDepth / 2) =
        iBeamFlangeQ d (d.iBeamDepth / 2) ∧
      iBeamFlangeQ d (d.iBeamDepth / 2) = 0 ∧
      (d.iBeamFlangeThick ≠ 2 →
        iBeamWebQ d (d.iBeamDepth / 2 - d.iBeamFlangeThick) ≠
          iBeamFlangeQ d (d.iBeamDepth / 2 - d.iBeamFlangeThick))) := by
  refine ⟨fun hb hh => ?_, fun hcd => ?_, fun hi ho => ?_,
    fun h1 h2 h3 h4 h5 => ?_⟩
  · have habs : |d.rectHeight / 2| = d.rectHeight / 2 := abs_of_pos (half_pos hh)
    constructor
    · rw [computeFirstMoment_rect, habs, if_neg (lt_irrefl _)]
    · rw [rectInsideQ, sub_self, mul_zero]
  · have habs : |d.circleDiameter / 2| = d.circleDiameter / 2 :=
      abs_of_pos (half_pos hcd)
    constructor
    · rw [computeFirstMoment_circle, habs, if_neg (lt_irrefl _)]
    · rw [circleInsideQ, sub_self, Real.zero_rpow (by norm_num), mul_zero]
  · have habsi : |d.hollowInner| = d.hollowInner := abs_of_pos hi
    have habso : |d.hollowOuter| = d.hollowOuter := abs_of_pos (hi.trans ho)
    refine ⟨?_, ?_, ?_, ?_⟩
    · rw [computeFirstMoment_hollow, habsi, if_neg (not_lt.mpr ho.le),
        if_pos le_rfl]
    · rw [hollowBoreQ, hollowRingQ, sub_self, Real.zero_rpow (by norm_num),
        sub_zero]
    · rw [computeFirstMoment_hollow, habso, if_neg (lt_irrefl _),
        if_neg (not_le.mpr ho)]
    · rw [hollowRingQ, sub_self, Real.zero_rpow (by norm_num), mul_zero]
  · have hroot : 0 < d.iBeamDepth / 2 - d.iBeamFlangeThick := by linarith
    have habsr : |d.iBeamDepth / 2 - d.iBeamFlangeThick| =
        d.iBeamDepth / 2 - d.iBeamFlangeThick := abs_of_pos hroot
    have habsh : |d.iBeamDepth / 2| = d.iBeamDepth / 2 := abs_of_pos (half_pos h1)
    refine ⟨?_, ?_, ?_, ?_⟩
    · rw [computeFirstMoment_iBeam, habsr, if_neg (by push_neg; linarith),
        if_pos le_rfl]
    · rw [computeFirstMoment_iBeam, habsh, if_neg (lt_irrefl _),
        if_neg (by push_neg; linarith)]
    · rw [iBeamFlangeQ, habsh, sub_self, mul_zero, zero_mul]
    · intro htf2 heq
      apply htf2
      rw [iBeamWebQ, iBeamFlangeQ, habsr] at heq
      have hbftf : 0 < d.iBeamFlangeWidth * d.iBeamFlangeThick :=
        mul_pos h2 h3
      nlinarith [heq, hbftf, mul_pos hbftf h3]

/-- Witness for the amended C1 at the default dimensions: the rectangle
boundary ordinate takes the inside branch, and the i-beam web/flange
root values disagree. -/
theorem boundary_inside_branch_continuity_witness :
    computeFirstMoment "rectangle" defaultDims (defaultDims.rectHeight / 2) =
      rectInsideQ defaultDims (defaultDims.rectHeight / 2) ∧
    iBeamWebQ defaultDims
        (defaultDims.iBeamDepth / 2 - defaultDims.iBeamFlangeThick) ≠
      iBeamFlangeQ defaultDims
        (defaultDims.iBeamDepth / 2 - defaultDims.iBeamFlangeThick) := by
  have h := boundary_inside_branch_continuity defaultDims
  refine ⟨(h.1 (by norm_num [defaultDims]) (by norm_num [defaultDims])).1, ?_⟩
  exact (h.2.2.2 (by norm_num [defaultDims]) (by norm_num [defaultDims])
    (by norm_num [defaultDims]) (by norm_num [defaultDims])
    (by norm_num [defaultDims])).2.2.2 (by norm_num [defaultDims])

/-- C2 counterexample: for the valid thick-flange i-beam (`h = 10`,
`bf = 1`, `tf = 3`, `tw = 0.01`, all positive with `2 * tf < h`), the
first moment at `y = 0` (namely `3.02`) is NOT the maximum: at the
flange ordinate `y = 2.1` the first moment is `4.205`. -/
theorem iBeam_Q_zero_not_max_cex :
    (0 < thickFlangeDims.iBeamDepth ∧ 0 < thickFlangeDims.iBeamFlangeWidth ∧
      0 < thickFlangeDims.iBeamFlangeThick ∧ 0 < thickFlangeDims.iBeamWebThick ∧
      2 * thickFlangeDims.iBeamFlangeThick < thickFlangeDims.iBeamDepth) ∧
    computeFirstMoment "iBeam" thickFlangeDims 0 <
      computeFirstMoment "iBeam" thickFlangeDims 2.1 := by
  constructor
  · refine ⟨?_, ?_, ?_, ?_, ?_⟩ <;> norm_num [thickFlangeDims, defaultDims]
  · have habs : |(2.1:ℝ)| = 2.1 := abs_of_pos (by norm_num)
    have c1 : ¬ |(0:ℝ)| > thickFlangeDims.iBeamDepth / 2 := by
      rw [abs_zero]
      norm_num [thickFlangeDims, defaultDims]
    have c2 : |(0:ℝ)| ≤ thickFlangeDims.iBeamDepth / 2 -
        thickFlangeDims.iBeamFlangeThick := by
      rw [abs_zero]
      norm_num [thickFlangeDims, defaultDims]
    have c3 : ¬ |(2.1:ℝ)| > thickFlangeDims.iBeamDepth / 2 := by
      rw [habs]
      norm_num [thickFlangeDims, defaultDims]
    have c4 : ¬ |(2.1:ℝ)| ≤ thickFlangeDims.iBeamDepth / 2 -
        thickFlangeDims.iBeamFlangeThick := by
      rw [habs]
      norm_num [thickFlangeDims, defaultDims]
    rw [computeFirstMoment_iBeam, computeFirstMoment_iBeam, if_neg c1,
      if_pos c2, if_neg c3, if_neg c4, iBeamWebQ, iBeamFlangeQ, habs, abs_zero]
    norm_num [thickFlangeDims, defaultDims]

/-- C2 amended: for every variant with valid positive dimensions the
first moment vanishes at `y = outerRadius`; the value at `y = 0` is the
maximum over all ordinates for the rectangle, solid circle and hollow
circle; for the i-beam it is the maximum over all ordinates outside the
open flange band (`|y| ≤ h/2 - tf` or `|y| > h/2`), but not in general
over flange ordinates. -/
theorem Q_zero_outer_and_max (d : Dims) (y : ℝ) :
    (0 < d.rectWidth → 0 < d.rectHeight →
      computeFirstMoment "rectangle" d
          (computeSectionProperties "rectangle" d).outerRadius = 0 ∧
      computeFirstMoment "rectangle" d y ≤ computeFirstMoment "rectangle" d 0) ∧
    (0 < d.circleDiameter →
      computeFirstMoment "circle" d
          (computeSectionProperties "circle" d).outerRadius = 0 ∧
      computeFirstMoment "circle" d y ≤ computeFirstMoment "circle" d 0) ∧
    (0 < d.hollowInner → d.hollowInner < d.hollowOuter →
      computeFirstMoment "hollowCircle" d
          (computeSectionProperties "hollowCircle" d).outerRadius = 0 ∧
      computeFirstMoment "hollowCircle" d y ≤
        computeFirstMoment "hollowCircle" d 0) ∧
    (0 < d.iBeamDepth → 0 < d.iBeamFlangeWidth → 0 < d.iBeamFlangeThick →
      0 < d.iBeamWebThick → 2 * d.iBeamFlangeThick < d.iBeamDepth →
      computeFirstMoment "iBeam" d
          (computeSectionProperties "iBeam" d).outerRadius = 0 ∧
      ((|y| ≤ d.iBeamDepth / 2 - d.iBeamFlangeThick ∨ d.iBeamDepth / 2 < |y|) →
        computeFirstMoment "iBeam" d y ≤ computeFirstMoment "iBeam" d 0)) := by
  refine ⟨fun hb hh => ?_, fun hcd => ?_, fun hi ho => ?_,
    fun h1 h2 h3 h4 h5 => ?_⟩
  · have hor : (computeSectionProperties "rectangle" d).outerRadius =
        d.rectHeight / 2 := by
      simp [computeSectionProperties]
    have habs : |d.rectHeight / 2| = d.rectHeight / 2 := abs_of_pos (half_pos hh)
    constructor
    · rw [hor, computeFirstMoment_rect, habs, if_neg (lt_irrefl _),
        rectInsideQ, sub_self, mul_zero]
    · have h00 : ¬ |(0:ℝ)| > d.rectHeight / 2 := by
        rw [abs_zero]
        push_neg
        positivity
      rw [computeFirstMoment_rect, computeFirstMoment_rect, if_neg h00]
      split_ifs with hy
      · rw [rectInsideQ]
        norm_num
        positivity
      · rw [rectInsideQ, rectInsideQ]
        push_neg at hy
        nlinarith [mul_nonneg (by linarith : (0:ℝ) ≤ d.rectWidth / 2) (sq_nonneg y)]
  · have hor : (computeSectionProperties "circle" d).outerRadius =
        d.circleDiameter / 2 := by
      simp [computeSectionProperties]
    have habs : |d.circleDiameter / 2| = d.circleDiameter / 2 :=
      abs_of_pos (half_pos hcd)
    constructor
    · rw [hor, computeFirstMoment_circle, habs, if_neg (lt_irrefl _),
        circleInsideQ, sub_self, Real.zero_rpow (by norm_num), mul_zero]
    · have h00 : ¬ |(0:ℝ)| > d.circleDiameter / 2 := by
        rw [abs_zero]
        push_neg
        positivity
      rw [computeFirstMoment_circle, computeFirstMoment_circle, if_neg h00]
      split_ifs with hy
      · rw [circleInsideQ]
        have hbase : (0:ℝ) ≤ d.circleDiameter / 2 * (d.circleDiameter / 2) - 0 * 0 := by
          nlinarith
        exact mul_nonneg (by norm_num) (Real.rpow_nonneg hbase _)
      · rw [circleInsideQ, circleInsideQ]
        push_neg at hy
        have hyy : y * y ≤ d.circleDiameter / 2 * (d.circleDiameter / 2) := by
          have := mul_self_le_mul_self (abs_nonneg y) hy
          rwa [abs_mul_abs_self] at this
        have hbase0 : (0:ℝ) ≤ d.circleDiameter / 2 * (d.circleDiameter / 2) - y * y := by
          linarith
        have hbase : d.circleDiameter / 2 * (d.circleDiameter / 2) - y * y ≤
            d.circleDiameter / 2 * (d.circleDiameter / 2) - 0 * 0 := by
          nlinarith [mul_self_nonneg y]
        exact mul_le_mul_of_nonneg_left
          (Real.rpow_le_rpow hbase0 hbase (by norm_num)) (by norm_num)
  · have h0o : 0 < d.hollowOuter := hi.trans ho
    have hor : (computeSectionProperties "hollowCircle" d).outerRadius =
        d.hollowOuter := by
      simp [computeSectionProperties, not_le.mpr ho]
    have habso : |d.hollowOuter| = d.hollowOuter := abs_of_pos h0o
    constructor
    · rw [hor, computeFirstMoment_hollow, habso, if_neg (lt_irrefl _),
        if_neg (not_le.mpr ho), hollowRingQ, sub_self,
        Real.zero_rpow (by norm_num), mul_zero]
    · have h00 : ¬ |(0:ℝ)| > d.hollowOuter := by
        rw [abs_zero]
        push_neg
        exact h0o.le
      have h01 : |(0:ℝ)| ≤ d.hollowInner := by
        rw [abs_zero]
        exact hi.le
      have e0 : (0:ℝ) * 0 = 0 := mul_zero 0
      have hcc : d.hollowInner * d.hollowInner ≤ d.hollowOuter * d.hollowOuter :=
        mul_self_le_mul_self hi.le ho.le
      rw [computeFirstMoment_hollow, computeFirstMoment_hollow, if_neg h00,
        if_pos h01]
      split_ifs with hy1 hy2
      · rw [hollowBoreQ, e0, sub_zero, sub_zero]
        have hmono : (d.hollowInner * d.hollowInner : ℝ) ^ (1.5:ℝ) ≤
            (d.hollowOuter * d.hollowOuter) ^ (1.5:ℝ) :=
          Real.rpow_le_rpow (mul_self_nonneg _) hcc (by norm_num)
        nlinarith [hmono]
      · rw [hollowBoreQ, hollowBoreQ, e0, sub_zero, sub_zero]
        have hyy : y * y ≤ d.hollowInner * d.hollowInner := by
          have := mul_self_le_mul_self (abs_nonneg y) hy2
          rwa [abs_mul_abs_self] at this
        have h4p := rpow15_four_point
          (show (0:ℝ) ≤ d.hollowInner * d.hollowInner - y * y by linarith)
          (show d.hollowInner * d.hollowInner - y * y ≤
            d.hollowInner * d.hollowInner by nlinarith [mul_self_nonneg y])
          (show (0:ℝ) ≤ d.hollowOuter * d.hollowOuter -
            d.hollowInner * d.hollowInner by linarith)
        rw [show d.hollowInner * d.hollowInner - y * y +
            (d.hollowOuter * d.hollowOuter - d.hollowInner * d.hollowInner) =
            d.hollowOuter * d.hollowOuter - y * y by ring,
          show d.hollowInner * d.hollowInner +
            (d.hollowOuter * d.hollowOuter - d.hollowInner * d.hollowInner) =
            d.hollowOuter * d.hollowOuter by ring] at h4p
        linarith
      · push_neg at hy1 hy2
        rw [hollowRingQ, hollowBoreQ, e0, sub_zero, sub_zero]
        have hyRo : y * y ≤ d.hollowOuter * d.hollowOuter := by
          have := mul_self_le_mul_self (abs_nonneg y) hy1
          rwa [abs_mul_abs_self] at this
        have hyRi : d.hollowInner * d.hollowInner ≤ y * y := by
          have := mul_self_le_mul_self hi.le hy2.le
          rwa [abs_mul_abs_self] at this
        have hstep : (d.hollowOuter * d.hollowOuter - y * y) ^ (1.5:ℝ) ≤
            (d.hollowOuter * d.hollowOuter -
              d.hollowInner * d.hollowInner) ^ (1.5:ℝ) :=
          Real.rpow_le_rpow (by linarith) (by linarith) (by norm_num)
        have h4p := rpow15_four_point (le_refl (0:ℝ))
          (show (0:ℝ) ≤ d.hollowInner * d.hollowInner from mul_self_nonneg _)
          (show (0:ℝ) ≤ d.hollowOuter * d.hollowOuter -
            d.hollowInner * d.hollowInner by linarith)
        rw [zero_add, Real.zero_rpow (by norm_num), zero_add,
          show d.hollowInner * d.hollowInner +
            (d.hollowOuter * d.hollowOuter - d.hollowInner * d.hollowInner) =
            d.hollowOuter * d.hollowOuter by ring] at h4p
        linarith
  · have hroot : 0 < d.iBeamDepth / 2 - d.iBeamFlangeThick := by linarith
    have hor : (computeSectionProperties "iBeam" d).outerRadius =
        d.iBeamDepth / 2 := by
      simp [computeSectionProperties]
    have habsh : |d.iBeamDepth / 2| = d.iBeamDepth / 2 := abs_of_pos (half_pos h1)
    constructor
    · rw [hor, computeFirstMoment_iBeam, habsh, if_neg (lt_irrefl _),
        if_neg (by push_neg; linarith), iBeamFlangeQ, habsh, sub_self,
        mul_zero, zero_mul]
    · intro hcase
      have h00 : ¬ |(0:ℝ)| > d.iBeamDepth / 2 := by
        rw [abs_zero]
        push_neg
        positivity
      have h01 : |(0:ℝ)| ≤ d.iBeamDepth / 2 - d.iBeamFlangeThick := by
        rw [abs_zero]
        exact hroot.le
      rw [computeFirstMoment_iBeam, computeFirstMoment_iBeam, if_neg h00,
        if_pos h01]
      rcases hcase with hweb | hout
      · rw [if_neg (show ¬ |y| > d.iBeamDepth / 2 by push_neg; linarith),
          if_pos hweb, iBeamWebQ, iBeamWebQ, abs_zero]
        nlinarith [mul_nonneg h4.le (mul_self_nonneg |y|)]
      · rw [if_pos hout, iBeamWebQ, abs_zero]
        nlinarith [mul_pos h2 h3, mul_pos (mul_pos h4 hroot) hroot]

/-- Witness for the amended C2 at the default rectangle, comparing the
ordinate `y = 0.03` against `y = 0` and evaluating at the outer radius. -/
theorem Q_zero_outer_and_max_witness :
    computeFirstMoment "rectangle" defaultDims
        (computeSectionProperties "rectangle" defaultDims).outerRadius = 0 ∧
    computeFirstMoment "rectangle" defaultDims 0.03 ≤
      computeFirstMoment "rectangle" defaultDims 0 :=
  (Q_zero_outer_and_max defaultDims 0.03).1
    (by norm_num [defaultDims]) (by norm_num [defaultDims])
